import Mathlib

/-
Shallow embedding of the AI-Background-Remover gateway.

Server side (src/unnamed/part_000, an Express app):
  - `app.post('/upload', upload.array('images'), async (req, res) => ...)`
    loops sequentially over `req.files`; for each file it builds a FormData
    with the file stream, awaits `axios.post('http://localhost:5001/remove-background',
    formData, { headers: formData.getHeaders(), responseType: 'arraybuffer' })`,
    writes the response bytes to `processed/<filename>.png`, pushes that path
    into `processedImages`, and unlinks the temp upload. Any thrown error is
    caught once at batch level and answered with status 500
    'Error processing images'. On full success it answers
    `res.json({ processedImages })`.
  - Startup: `if (!fs.existsSync('uploads')) fs.mkdirSync('uploads')`, same
    for 'processed', executed at module top level before `app.listen(PORT)`.

Client side (src/script.js):
  - builds the /upload query string from the quality controls
    (object_type, trimap_prob_threshold, trimap_dilation, trimap_erosion_iters,
    feather_radius, alpha_threshold) and reads `payload.results`;
  - `escapeHtml` replaces each of the characters & < > " ' by its HTML entity.
-/

namespace BgRemover

/-- An uploaded file as multer hands it to the handler: the temp path under
`uploads/`, the generated filename, the browser-supplied original name, and
the file bytes. -/
structure UploadedFile where
  path : String
  filename : String
  originalname : String
  bytes : List Nat
deriving Repr, DecidableEq

/-- Outcome of one awaited `axios.post` call to the inference engine: either
the response body bytes (success status), or a thrown error (transport
failure or non-success status — axios throws in both cases). -/
inductive AxiosOutcome where
  | ok (data : List Nat)
  | err
deriving Repr, DecidableEq

/-- The quality-tuning query parameters the client appends to the /upload
URL (script.js lines 166-172). The server handler never reads them. -/
structure QueryParams where
  object_type : String
  trimap_prob_threshold : Int
  trimap_dilation : Int
  trimap_erosion_iters : Int
  feather_radius : Int
  alpha_threshold : Int
deriving Repr, DecidableEq

/-- The request the handler issues to the inference engine for one file:
`axios.post` of the FormData (field 'file' bound to the temp-file stream)
against the fixed URL, with `responseType: 'arraybuffer'` and no `timeout`
key in the config object (axios default: wait indefinitely). -/
structure BackendRequest where
  url : String
  fieldName : String
  filePath : String
  responseType : String
  timeout : Option Nat
deriving Repr, DecidableEq

/-- Builds the backend request exactly as the source does (part_000 lines
17-25): only the file stream is attached; no quality parameter and no
timeout appears anywhere in the request. -/
def mkBackendRequest (f : UploadedFile) : BackendRequest :=
  { url := "http://localhost:5001/remove-background"
  , fieldName := "file"
  , filePath := f.path
  , responseType := "arraybuffer"
  , timeout := none }

/-- Minimal JSON value type for the response bodies exchanged between
server and client. -/
inductive Json where
  | str (s : String)
  | num (n : Int)
  | bool (b : Bool)
  | arr (xs : List Json)
  | obj (fields : List (String × Json))
deriving Repr

/-- Field lookup on a JSON object (none on non-objects or missing key). -/
def jsonLookup (j : Json) (key : String) : Option Json :=
  match j with
  | .obj fields => fields.lookup key
  | _ => none

/-- The two ways the handler answers: `res.json(body)` on success of the
whole loop, or `res.status(500).send(msg)` from the batch-level catch. -/
inductive HttpResponse where
  | json (body : Json)
  | serverError (msg : String)
deriving Repr

/-- Observable server-side state threaded through the handler: temp files
currently on disk, the `processed/` writes, the log of `fs.unlinkSync`
calls, and the log of backend requests issued. -/
structure ServerState where
  diskFiles : List String
  processedWrites : List (String × List Nat)
  unlinkLog : List String
  requests : List BackendRequest
deriving Repr, DecidableEq

/-- Output path chosen by the handler for one file (part_000 line 27):
`processed/<filename>.png`. -/
def outPath (f : UploadedFile) : String :=
  "processed/" ++ f.filename ++ ".png"

/-- The sequential for-of loop of the /upload handler (part_000 lines
16-31). Each iteration issues one backend request; on success it writes the
output, records the path, and unlinks the temp file; a thrown axios error
aborts the loop immediately (`none`), leaving the remaining files (and the
failing file's temp) untouched. -/
def processLoop (infer : UploadedFile → AxiosOutcome) :
    List UploadedFile → ServerState → List String → ServerState × Option (List String)
  | [], s, acc => (s, some acc)
  | f :: rest, s, acc =>
    let s1 : ServerState := { s with requests := s.requests ++ [mkBackendRequest f] }
    match infer f with
    | .err => (s1, none)
    | .ok data =>
      let s2 : ServerState :=
        { s1 with
          processedWrites := s1.processedWrites ++ [(outPath f, data)]
        , unlinkLog := s1.unlinkLog ++ [f.path]
        , diskFiles := s1.diskFiles.filter (fun p => p ≠ f.path) }
      processLoop infer rest s2 (acc ++ [outPath f])

/-- The whole /upload handler (part_000 lines 13-37). The query parameters
`q` are taken but never consulted — the source never reads `req.query`.
On loop success it responds `res.json({ processedImages })`; on any thrown
error the single batch-level catch responds 500 'Error processing images'. -/
def uploadHandler (_q : QueryParams) (infer : UploadedFile → AxiosOutcome)
    (files : List UploadedFile) (s : ServerState) : ServerState × HttpResponse :=
  match processLoop infer files s [] with
  | (s1, some paths) =>
      (s1, .json (.obj [("processedImages", .arr (paths.map .str))]))
  | (s1, none) => (s1, .serverError "Error processing images")

/-- Whether the inference call for `f` succeeds (axios resolves rather than
throws). -/
def succeeds (infer : UploadedFile → AxiosOutcome) (f : UploadedFile) : Bool :=
  match infer f with
  | .ok _ => true
  | .err => false

/-- The files for which the loop actually issues a backend request: the
longest all-successful initial run, plus the first failing file if any. -/
def attempted (infer : UploadedFile → AxiosOutcome) (files : List UploadedFile) :
    List UploadedFile :=
  files.takeWhile (succeeds infer) ++ (files.dropWhile (succeeds infer)).take 1

/-- In-flight inference-call counts at the successive execution points of
the handler: the sequential loop awaits each `axios.post`, so each item is
dispatched (count 1) and settled (count 0) before the next is touched; a
rejected await ends the loop. -/
def dispatchTrace (infer : UploadedFile → AxiosOutcome) :
    List UploadedFile → List Nat
  | [] => []
  | f :: rest =>
    match infer f with
    | .err => [1, 0]
    | .ok _ => [1, 0] ++ dispatchTrace infer rest

/-- Models `if (!fs.existsSync(d)) fs.mkdirSync(d)` on a filesystem seen as
the list of existing directories (part_000 lines 47-52). -/
def ensureDir (d : String) (fs : List String) : List String :=
  if d ∈ fs then fs else fs ++ [d]

/-- The startup initialization: ensure 'uploads', then 'processed'. -/
def startupInit (fs : List String) : List String :=
  ensureDir "processed" (ensureDir "uploads" fs)

/-- The top-level statements of part_000, in source order. -/
inductive StartupStep where
  | registerUploadRoute
  | registerRootRoute
  | registerProcessedStatic
  | ensureUploadsDir
  | ensureProcessedDir
  | listen
deriving Repr, DecidableEq

/-- The module's top-level execution order (part_000): route registrations,
then the two directory checks, then `app.listen`. -/
def moduleTopLevel : List StartupStep :=
  [ .registerUploadRoute, .registerRootRoute, .registerProcessedStatic
  , .ensureUploadsDir, .ensureProcessedDir, .listen ]

/-- The single-character substitution of `escapeHtml`'s regex replace
(script.js lines 236-247): the five characters of the class [&<>"'] map to
their entities; any other character is not matched. -/
def escapeMap (c : Char) : Option String :=
  if c = '&' then some "&amp;"
  else if c = '<' then some "&lt;"
  else if c = '>' then some "&gt;"
  else if c = Char.ofNat 34 then some "&quot;"
  else if c = Char.ofNat 39 then some "&#39;"
  else none

/-- Character-by-character expansion performed by the global regex replace. -/
def escapeChars : List Char → List Char
  | [] => []
  | c :: cs =>
    (match escapeMap c with
     | some e => e.data
     | none => [c]) ++ escapeChars cs

/-- The escapeHtml function of script.js:
`String(str).replace(/[&<>"']/g, s => map[s])`. -/
def escapeHtml (s : String) : String :=
  String.mk (escapeChars s.data)

/-- One of the characters the claim says may not appear literally in
escapeHtml's output: < > " ' (34 and 39 are the quote and apostrophe
code points). -/
def isBadChar (c : Char) : Bool :=
  (c == '<') || (c == '>') || (c == Char.ofNat 34) || (c == Char.ofNat 39)

/-- True when no literal < > " ' occurs in the string. -/
def noBadChars (s : String) : Bool :=
  s.data.all (fun c => !(isBadChar c))

/-- True when every entry of the list is at most `C`. -/
def atMost (C : Nat) (l : List Nat) : Bool :=
  l.all (fun n => n ≤ C)

/-- Concrete fixture: a first uploaded file. -/
def fileA : UploadedFile :=
  { path := "uploads/tmpA", filename := "tmpA", originalname := "a.jpg", bytes := [1, 2] }

/-- Concrete fixture: a second uploaded file. -/
def fileB : UploadedFile :=
  { path := "uploads/tmpB", filename := "tmpB", originalname := "b.jpg", bytes := [3] }

/-- Server state at the start of a request over the two fixture files. -/
def initState : ServerState :=
  { diskFiles := ["uploads/tmpA", "uploads/tmpB"]
  , processedWrites := [], unlinkLog := [], requests := [] }

/-- Backend that answers every call successfully. -/
def inferOk : UploadedFile → AxiosOutcome := fun _ => .ok [7]

/-- Backend for which every call throws (transport failure or non-success
status). -/
def inferFail : UploadedFile → AxiosOutcome := fun _ => .err

/-- Backend that fails exactly on the second fixture file. -/
def inferFailB : UploadedFile → AxiosOutcome :=
  fun f => if f.filename = "tmpB" then .err else .ok [7]

/-- The client's default quality parameters (the 'auto' preset of
script.js line 57). -/
def qDefault : QueryParams :=
  { object_type := "hairs-like", trimap_prob_threshold := 231
  , trimap_dilation := 30, trimap_erosion_iters := 5
  , feather_radius := 0, alpha_threshold := 0 }

/-- Out-of-range parameters from the claim: alpha_threshold = -5. -/
def qBad : QueryParams := { qDefault with alpha_threshold := -5 }

lemma uploadHandler_fst (q : QueryParams) (infer : UploadedFile → AxiosOutcome)
    (files : List UploadedFile) (s : ServerState) :
    (uploadHandler q infer files s).1 = (processLoop infer files s []).1 := by
  unfold uploadHandler
  rcases processLoop infer files s [] with ⟨s1, r⟩
  cases r <;> rfl

lemma processLoop_some_of_ok (infer : UploadedFile → AxiosOutcome) :
    ∀ (files : List UploadedFile) (s : ServerState) (acc : List String),
      (∀ f ∈ files, succeeds infer f = true) →
      (processLoop infer files s acc).2 = some (acc ++ files.map outPath)
  | [], s, acc, _ => by simp [processLoop]
  | f :: rest, s, acc, h => by
    have hf : succeeds infer f = true := h f (by simp)
    cases hif : infer f with
    | err => rw [succeeds, hif] at hf; exact absurd hf (by simp)
    | ok data =>
      simp only [processLoop, hif]
      rw [processLoop_some_of_ok infer rest _ _ (fun g hg => h g (List.mem_cons_of_mem _ hg))]
      simp

lemma processLoop_none_of_err (infer : UploadedFile → AxiosOutcome) :
    ∀ (files : List UploadedFile) (s : ServerState) (acc : List String),
      (∃ f ∈ files, succeeds infer f = false) →
      (processLoop infer files s acc).2 = none
  | [], _, _, h => by simp at h
  | f :: rest, s, acc, h => by
    cases hif : infer f with
    | err => simp only [processLoop, hif]
    | ok data =>
      rcases h with ⟨g, hg, hgf⟩
      rcases List.mem_cons.mp hg with hgf' | hgrest
      · subst hgf'; rw [succeeds, hif] at hgf; exact absurd hgf (by simp)
      · simp only [processLoop, hif]
        exact processLoop_none_of_err infer rest _ _ ⟨g, hgrest, hgf⟩

lemma processLoop_unlinkLog (infer : UploadedFile → AxiosOutcome) :
    ∀ (files : List UploadedFile) (s : ServerState) (acc : List String),
      (processLoop infer files s acc).1.unlinkLog
        = s.unlinkLog ++ (files.takeWhile (succeeds infer)).map (fun f => f.path)
  | [], s, acc => by simp [processLoop]
  | f :: rest, s, acc => by
    cases hif : infer f with
    | err =>
      have hf : succeeds infer f = false := by rw [succeeds, hif]
      simp [processLoop, hif, List.takeWhile_cons, hf]
    | ok data =>
      have hf : succeeds infer f = true := by rw [succeeds, hif]
      simp only [processLoop, hif, List.takeWhile_cons, hf, if_true]
      rw [processLoop_unlinkLog infer rest]
      simp

lemma processLoop_requests (infer : UploadedFile → AxiosOutcome) :
    ∀ (files : List UploadedFile) (s : ServerState) (acc : List String),
      (processLoop infer files s acc).1.requests
        = s.requests ++ (attempted infer files).map mkBackendRequest
  | [], s, acc => by simp [processLoop, attempted]
  | f :: rest, s, acc => by
    cases hif : infer f with
    | err =>
      have hf : succeeds infer f = false := by rw [succeeds, hif]
      simp [processLoop, hif, attempted, List.takeWhile_cons, List.dropWhile_cons, hf]
    | ok data =>
      have hf : succeeds infer f = true := by rw [succeeds, hif]
      simp only [processLoop, hif]
      rw [processLoop_requests infer rest]
      simp [attempted, List.takeWhile_cons, List.dropWhile_cons, hf]

lemma attempted_ne_nil (infer : UploadedFile → AxiosOutcome)
    (files : List UploadedFile) (h : files ≠ []) :
    1 ≤ (attempted infer files).length := by
  cases files with
  | nil => exact absurd rfl h
  | cons f rest =>
    by_cases hf : succeeds infer f = true
    · simp [attempted, List.takeWhile_cons, List.dropWhile_cons, hf]
    · simp only [Bool.not_eq_true] at hf
      simp [attempted, List.takeWhile_cons, List.dropWhile_cons, hf]

/-- C1 counterexample: a batch of two files where the first inference call
fails is answered by the batch-level 500 'Error processing images' — no
outcome list at all, although processing had already started (one inference
request was issued), so this is not the claim's validation-rejection
exception. -/
theorem c1_failed_batch_loses_all_outcomes :
    (uploadHandler qDefault inferFail [fileA, fileB] initState).2
        = HttpResponse.serverError "Error processing images"
      ∧ (uploadHandler qDefault inferFail [fileA, fileB] initState).1.requests.length = 1 :=
  ⟨rfl, rfl⟩

/-- C1 (amended): when every item's inference call succeeds, the response
is the ordered list of the K processed paths, one per submitted item in
submission order; when any call fails, the handler instead answers a
batch-level 500 with no outcome entries (the code has no validation step). -/
theorem c1_success_batch_has_ordered_entries
    (q : QueryParams) (infer : UploadedFile → AxiosOutcome)
    (files : List UploadedFile) (s : ServerState)
    (h : ∀ f ∈ files, succeeds infer f = true) :
    (uploadHandler q infer files s).2
        = HttpResponse.json (.obj
            [("processedImages", .arr (files.map (fun f => Json.str (outPath f))))])
      ∧ (files.map (fun f => Json.str (outPath f))).length = files.length := by
  refine ⟨?_, by simp⟩
  have h2 := processLoop_some_of_ok infer files s [] h
  unfold uploadHandler
  rcases hp : processLoop infer files s [] with ⟨s1, r⟩
  rw [hp] at h2
  simp only at h2
  subst h2
  simp

/-- Witness for C1 (amended) at a concrete two-file batch. -/
theorem c1_success_batch_has_ordered_entries_witness :
    (uploadHandler qDefault inferOk [fileA, fileB] initState).2
        = HttpResponse.json (.obj
            [("processedImages",
              .arr [Json.str "processed/tmpA.png", Json.str "processed/tmpB.png"])]) := by
  have h := c1_success_batch_has_ordered_entries qDefault inferOk [fileA, fileB] initState
    (by intro f _; rfl)
  exact h.1

/-- C2 counterexample: a two-file batch where only the second call fails.
The first item had fully succeeded (its output was written), yet the whole
batch is answered 500 with no per-item records: the failure escaped the
per-item boundary and erased the sibling's outcome. -/
theorem c2_failure_escapes_item_boundary :
    (uploadHandler qDefault inferFailB [fileA, fileB] initState).2
        = HttpResponse.serverError "Error processing images"
      ∧ (uploadHandler qDefault inferFailB [fileA, fileB] initState).1.processedWrites
        = [("processed/tmpA.png", [7])] :=
  ⟨rfl, rfl⟩

/-- C2 (amended): a failing inference call is never recorded as an
ok=false entry for that item alone — any failure in the batch aborts the
whole batch through the single try/catch, which answers 500
'Error processing images' and discards every sibling's outcome. -/
theorem c2_any_failure_aborts_batch
    (q : QueryParams) (infer : UploadedFile → AxiosOutcome)
    (files : List UploadedFile) (s : ServerState)
    (h : ∃ f ∈ files, succeeds infer f = false) :
    (uploadHandler q infer files s).2
      = HttpResponse.serverError "Error processing images" := by
  have h2 := processLoop_none_of_err infer files s [] h
  unfold uploadHandler
  rcases hp : processLoop infer files s [] with ⟨s1, r⟩
  rw [hp] at h2
  simp only at h2
  subst h2
  rfl

/-- Witness for C2 (amended) at a concrete failing batch. -/
theorem c2_any_failure_aborts_batch_witness :
    (uploadHandler qDefault inferFail [fileA] initState).2
      = HttpResponse.serverError "Error processing images" :=
  c2_any_failure_aborts_batch qDefault inferFail [fileA] initState
    ⟨fileA, by simp, rfl⟩

/-- C3 counterexample: with alpha_threshold = -5 the batch is not rejected:
the handler issues an inference request for the file and answers a normal
200 JSON response — one call reached the engine, not zero. -/
theorem c3_out_of_range_params_not_rejected :
    (uploadHandler qBad inferOk [fileA] initState).1.requests.length = 1
      ∧ (uploadHandler qBad inferOk [fileA] initState).2
          = HttpResponse.json (.obj
              [("processedImages", .arr [Json.str "processed/tmpA.png"])]) :=
  ⟨rfl, rfl⟩

/-- C3 (amended): the handler performs no parameter validation at all —
whatever the quality parameters (in range or not), a nonempty batch always
sends at least one request to the inference engine: the request log grows
by exactly the attempted items, which are never zero for a nonempty batch. -/
theorem c3_no_validation_before_dispatch
    (q : QueryParams) (infer : UploadedFile → AxiosOutcome)
    (files : List UploadedFile) (s : ServerState)
    (h : files ≠ []) :
    (uploadHandler q infer files s).1.requests.length
        = s.requests.length + (attempted infer files).length
      ∧ 1 ≤ (attempted infer files).length := by
  constructor
  · rw [uploadHandler_fst, processLoop_requests]
    simp
  · exact attempted_ne_nil infer files h

/-- Witness for C3 (amended): the out-of-range parameters of the claim. -/
theorem c3_no_validation_before_dispatch_witness :
    (uploadHandler qBad inferOk [fileA] initState).1.requests.length
        = initState.requests.length + (attempted inferOk [fileA]).length
      ∧ 1 ≤ (attempted inferOk [fileA]).length :=
  c3_no_validation_before_dispatch qBad inferOk [fileA] initState (by simp)

/-- C4 counterexample: when the single item's inference call fails, its
temporary file is never unlinked — zero releases, not exactly one — and it
is still on disk when the handler finishes. -/
theorem c4_failed_item_leaks_temp_file :
    (uploadHandler qDefault inferFail [fileA] initState).1.unlinkLog = []
      ∧ "uploads/tmpA" ∈ (uploadHandler qDefault inferFail [fileA] initState).1.diskFiles :=
  ⟨rfl, by decide⟩

/-- C4 (amended): the handler unlinks exactly the temp files of the initial
run of successful items, in order — an item's temp file is released once
when its own call succeeds, and the first failing item's file together with
every later item's file is never released (it leaks). -/
theorem c4_unlink_exactly_successful_items
    (q : QueryParams) (infer : UploadedFile → AxiosOutcome)
    (files : List UploadedFile) (s : ServerState) :
    (uploadHandler q infer files s).1.unlinkLog
      = s.unlinkLog ++ (files.takeWhile (succeeds infer)).map (fun f => f.path) := by
  rw [uploadHandler_fst]
  exact processLoop_unlinkLog infer files s []

/-- C5: at a successful one-file batch the server's JSON body is
an object whose only key is 'processedImages' holding plain path strings —
there is no 'results' key and no per-entry ok/url-or-error/name/ms record,
although the client reads payload.results expecting exactly those fields
(script.js lines 185-186). -/
theorem c5_response_is_plain_path_list :
    (uploadHandler qDefault inferOk [fileA] initState).2
        = HttpResponse.json (.obj
            [("processedImages", .arr [Json.str "processed/tmpA.png"])])
      ∧ jsonLookup
          (Json.obj [("processedImages", .arr [Json.str "processed/tmpA.png"])])
          "results" = none :=
  ⟨rfl, rfl⟩

/-- C6 counterexample: the request config built for a call carries no
timeout at all (axios default: wait indefinitely), and a connection failure
does not resolve to a per-item typed error — it aborts the whole batch with
the 500 catch-all. -/
theorem c6_call_unbounded_and_failure_aborts :
    (mkBackendRequest fileB).timeout = none
      ∧ (uploadHandler qDefault inferFail [fileB] initState).2
          = HttpResponse.serverError "Error processing images" :=
  ⟨rfl, rfl⟩

/-- C6 (amended): no per-call timeout is configured — every request the
handler issues to the inference engine has its timeout unset, so a backend
that never responds is waited on indefinitely, and a transport failure is
answered by the batch-level 500 rather than a per-item timeout-tagged
outcome. -/
theorem c6_requests_have_no_timeout
    (q : QueryParams) (infer : UploadedFile → AxiosOutcome)
    (files : List UploadedFile) (s : ServerState) (r : BackendRequest)
    (h : r ∈ (uploadHandler q infer files s).1.requests) (h2 : r ∉ s.requests) :
    r.timeout = none := by
  rw [uploadHandler_fst, processLoop_requests] at h
  rcases List.mem_append.mp h with hs | hm
  · exact absurd hs h2
  · rcases List.mem_map.mp hm with ⟨f, _, hf⟩
    rw [← hf]
    rfl

/-- Witness for C6 (amended) at a concrete issued request. -/
theorem c6_requests_have_no_timeout_witness :
    (mkBackendRequest fileA).timeout = none :=
  c6_requests_have_no_timeout qDefault inferOk [fileA] initState
    (mkBackendRequest fileA) (by decide) (by decide)

lemma dispatchTrace_le_one (infer : UploadedFile → AxiosOutcome) :
    ∀ (files : List UploadedFile), ∀ n ∈ dispatchTrace infer files, n ≤ 1
  | [] => by simp [dispatchTrace]
  | f :: rest => by
    intro n hn
    cases hif : infer f with
    | err =>
      simp only [dispatchTrace, hif] at hn
      simp at hn
      rcases hn with h | h <;> omega
    | ok data =>
      simp only [dispatchTrace, hif] at hn
      simp at hn
      rcases hn with h | h | h
      · omega
      · omega
      · exact dispatchTrace_le_one infer rest n h

/-- C7: the handler's loop awaits each inference call before touching the
next file, so at every execution point at most one call is in flight; for
any concurrency bound C ≥ 1 and batch size K > C, at no point are more
than C items simultaneously dispatched. -/
theorem c7_at_most_C_in_flight (C K : Nat) (infer : UploadedFile → AxiosOutcome)
    (files : List UploadedFile)
    (_hK : files.length = K) (_hCK : C < K) (hC : 1 ≤ C) :
    atMost C (dispatchTrace infer files) = true := by
  rw [atMost, List.all_eq_true]
  intro n hn
  have h1 := dispatchTrace_le_one infer files n hn
  exact decide_eq_true (by omega)

/-- Witness for C7 at a two-file batch with bound 1. -/
theorem c7_at_most_C_in_flight_witness :
    atMost 1 (dispatchTrace inferOk [fileA, fileB]) = true :=
  c7_at_most_C_in_flight 1 2 inferOk [fileA, fileB] rfl (by decide) (by decide)

lemma ensureDir_mem_self (d : String) (fs : List String) : d ∈ ensureDir d fs := by
  unfold ensureDir
  split
  · assumption
  · simp

lemma ensureDir_mem_of_mem {x : String} (d : String) {fs : List String}
    (h : x ∈ fs) : x ∈ ensureDir d fs := by
  unfold ensureDir
  split
  · exact h
  · exact List.mem_append_left _ h

lemma ensureDir_eq_of_mem {d : String} {fs : List String} (h : d ∈ fs) :
    ensureDir d fs = fs := by
  unfold ensureDir
  simp [h]

lemma startupInit_mem_uploads (fs : List String) : "uploads" ∈ startupInit fs :=
  ensureDir_mem_of_mem _ (ensureDir_mem_self _ _)

lemma startupInit_mem_processed (fs : List String) : "processed" ∈ startupInit fs :=
  ensureDir_mem_self _ _

lemma startupInit_eq_of_mem {fs : List String}
    (h1 : "uploads" ∈ fs) (h2 : "processed" ∈ fs) : startupInit fs = fs := by
  unfold startupInit
  rw [ensureDir_eq_of_mem h1, ensureDir_eq_of_mem h2]

/-- C8: the directory-ensuring startup step is idempotent — running it
twice equals running it once, and on a state already holding both
directories it changes nothing — and in the module's top-level order both
directory checks execute strictly before `app.listen`. -/
theorem c8_startup_idempotent_before_listen (fs : List String) :
    startupInit (startupInit fs) = startupInit fs
      ∧ ("uploads" ∈ fs → "processed" ∈ fs → startupInit fs = fs)
      ∧ moduleTopLevel.indexOf StartupStep.ensureUploadsDir
          < moduleTopLevel.indexOf StartupStep.listen
      ∧ moduleTopLevel.indexOf StartupStep.ensureProcessedDir
          < moduleTopLevel.indexOf StartupStep.listen :=
  ⟨startupInit_eq_of_mem (startupInit_mem_uploads fs) (startupInit_mem_processed fs),
   fun h1 h2 => startupInit_eq_of_mem h1 h2,
   by decide, by decide⟩

/-- Witness for C8 on a state where both directories already exist. -/
theorem c8_startup_idempotent_before_listen_witness :
    startupInit ["uploads", "processed"] = ["uploads", "processed"] :=
  (c8_startup_idempotent_before_listen ["uploads", "processed"]).2.1
    (by decide) (by decide)

/-- C9: the handler never reads the quality parameters: two submissions
with identical files and arbitrarily different parameter sets issue
identical backend requests — indeed the whole observable behavior
(final state and response) coincides. -/
theorem c9_params_have_no_influence (q1 q2 : QueryParams)
    (infer : UploadedFile → AxiosOutcome)
    (files : List UploadedFile) (s : ServerState) :
    (uploadHandler q1 infer files s).1.requests
        = (uploadHandler q2 infer files s).1.requests
      ∧ uploadHandler q1 infer files s = uploadHandler q2 infer files s :=
  ⟨rfl, rfl⟩

lemma escapeMap_good (c : Char) :
    (match escapeMap c with
     | some e => e.data
     | none => [c]).all (fun x => !(isBadChar x)) = true := by
  unfold escapeMap
  split_ifs with h1 h2 h3 h4 h5
  · exact (by decide : (("&amp;" : String).data.all fun x => !(isBadChar x)) = true)
  · exact (by decide : (("&lt;" : String).data.all fun x => !(isBadChar x)) = true)
  · exact (by decide : (("&gt;" : String).data.all fun x => !(isBadChar x)) = true)
  · exact (by decide : (("&quot;" : String).data.all fun x => !(isBadChar x)) = true)
  · exact (by decide : (("&#39;" : String).data.all fun x => !(isBadChar x)) = true)
  · simp [isBadChar, h2, h3, h4, h5]

lemma escapeChars_all_good :
    ∀ l : List Char, (escapeChars l).all (fun c => !(isBadChar c)) = true
  | [] => rfl
  | c :: cs => by
    simp only [escapeChars, List.all_append, escapeChars_all_good cs, Bool.and_true]
    exact escapeMap_good c

lemma escapeChars_id_of_none :
    ∀ l : List Char, (∀ c ∈ l, escapeMap c = none) → escapeChars l = l
  | [], _ => rfl
  | c :: cs, h => by
    have hc : escapeMap c = none := h c (by simp)
    simp only [escapeChars, hc]
    rw [escapeChars_id_of_none cs (fun x hx => h x (by simp [hx]))]
    exact List.singleton_append

/-- C10: escapeHtml's output never contains a literal < > " or '
character — every occurrence of the five special characters is expanded to
its entity — and a string containing none of the five special characters
passes through unchanged. -/
theorem c10_escapeHtml_escapes (s : String) :
    noBadChars (escapeHtml s) = true
      ∧ ((∀ c ∈ s.data, escapeMap c = none) → escapeHtml s = s) := by
  constructor
  · exact escapeChars_all_good s.data
  · intro h
    unfold escapeHtml
    rw [escapeChars_id_of_none s.data h]

/-- Witness for C10: output of a string holding specials is clean; a
special-free string is unchanged. -/
theorem c10_escapeHtml_escapes_witness :
    noBadChars (escapeHtml "a<b&c") = true ∧ escapeHtml "ab" = "ab" :=
  ⟨(c10_escapeHtml_escapes "a<b&c").1,
   (c10_escapeHtml_escapes "ab").2 (by decide)⟩

end BgRemover
